import Mathlib

/-!
# Verification of the TLS intercepting proxy (tls_interceptor_proxy)

A shallow embedding, in Lean 4, of the request-handling core of the
`tls_interceptor_proxy` repository:

* `src/third_wheel/proxy/mitm.rs` — the `RequestSendingSynchronizer` run
  loop and the `ThirdWheel` interception service;
* `src/third_wheel/proxy.rs` — the CONNECT front-end, the tunnel
  orchestration `run_mitm_on_connection`, `connect_to_target_with_tls`,
  and `target_host_port_from_connect`;
* `src/utilities.rs` / `src/main.rs` — the HAR copy functions,
  `convert_body_to_json` and `parse_request`.

Conventions of the embedding:

* Rust `Result<A, E>` is the inductive `Res A E` below.
* Byte vectors (`Vec<u8>`, Rust `String` contents) are `List Nat`
  (each element a byte value).
* hyper's `HeaderMap` is a list of (lowercase-name, value) pairs;
  `HeaderMap::remove` removes every entry with the given name.
* Fallible external operations (TCP dial, TLS handshakes, the upstream
  `SendRequest`) are passed in as function arguments producing `Res`
  values, so the control flow of the Rust functions can be analysed for
  every possible outcome of the environment.
* Asynchronous sequencing is made explicit as event traces: each
  embedded function returns, besides its result, the ordered list of
  externally visible actions it performed.
-/

set_option autoImplicit false

namespace TlsProxy

/-- Rust `Result<A, E>`. -/
inductive Res (α : Type) (ε : Type) where
  | ok (a : α) : Res α ε
  | err (e : ε) : Res α ε
deriving DecidableEq, Repr

/-- The proxy error type, from `src/third_wheel/error.rs`. Wrapped foreign
errors (`hyper::Error`, `io::Error`, ...) are opaque; we index them by a
natural number. -/
inductive Error where
  | ServerError (msg : String)
  | RequestError (msg : String)
  | HyperError (code : Nat)
  | IOError (code : Nat)
  | NativeTlsError (code : Nat)
  | OpenSslError (code : Nat)
deriving DecidableEq, Repr

/-- A hyper `Uri`, with the accessors the source uses: `path_and_query`,
`host` and `port` (hyper derives host and port from the authority; the
embedding records them directly). -/
structure Uri where
  scheme : Option String
  authority : Option String
  path_and_query : Option String
  host : Option String
  port : Option Nat
deriving DecidableEq, Repr

/-- An HTTP request (`hyper::Request<Body>`): method, URI, header map and
fully buffered body bytes. -/
structure HRequest where
  method : String
  uri : Uri
  headers : List (String × String)
  body : List Nat
deriving DecidableEq, Repr

/-- An HTTP response (`hyper::Response<Body>`). -/
structure HResponse where
  status : Nat
  headers : List (String × String)
  body : List Nat
deriving DecidableEq, Repr

/-- Characters hyper accepts in a path-and-query string (RFC 3986
pchar / query characters, plus the percent sign of escapes). -/
def isPathQueryChar (c : Char) : Bool :=
  c.isAlphanum ||
    [ '-', '.', '_', '~', '!', '$', '&', '\'', '(', ')', '*', '+', ',',
      ';', '=', ':', '@', '/', '?', '%' ].contains c

/-- Embedding of hyper's `str::parse::<Uri>` applied to a path-and-query
string, as the synchronizer does (`path.as_str().parse()`): a string that
is a well-formed origin-form target re-parses to a URI with no scheme and
no authority and exactly that path-and-query; anything else fails. -/
def parseOriginFormUri (s : String) : Option Uri :=
  if s.length > 0 && s.front = '/' && s.data.all isPathQueryChar then
    some { scheme := none, authority := none, path_and_query := some s,
           host := none, port := none }
  else
    none

/-- The URI-rewriting and header-stripping step of
`RequestSendingSynchronizer::run` (mitm.rs lines 36-55): take the
incoming request's path-and-query (error if absent), re-parse it (error
if invalid), install it as the request URI and remove every
`proxy-connection` header. -/
def rewrite_request (request : HRequest) : Res HRequest Error :=
  match request.uri.path_and_query with
  | none => .err (.RequestError "URI did not contain a path")
  | some paq =>
      match parseOriginFormUri paq with
      | none => .err (.RequestError "Given URI was invalid")
      | some newUri =>
          .ok { request with
                uri := newUri,
                headers := request.headers.filter
                  (fun kv => kv.1 ≠ "proxy-connection") }

/-- `self.request_sender.send_request(request)` followed by the await and
`map_err(|e| e.into())`: the upstream sender (an abstract function from
requests to transport outcomes, transport errors being opaque
`hyper::Error` codes) is invoked and its error is wrapped as
`Error::HyperError`. -/
def send_request (upstream : HRequest → Res HResponse Nat) (r : HRequest) :
    Res HResponse Error :=
  match upstream r with
  | .ok resp => .ok resp
  | .err t => .err (.HyperError t)

/-- The value `response_to_send` the run loop delivers on the reply
channel for a given incoming request. -/
def expected_reply (upstream : HRequest → Res HResponse Nat)
    (request : HRequest) : Res HResponse Error :=
  match rewrite_request request with
  | .err e => .err e
  | .ok r => send_request upstream r

/-- Externally visible actions of one `RequestSendingSynchronizer::run`
loop iteration: submitting a rewritten request to the upstream sender,
the resolution of its response future, completing a reply channel, and
the logged failure when the reply receiver has been dropped. -/
inductive SyncEvent where
  | submit (r : HRequest)
  | resolve (v : Res HResponse Error)
  | complete (id : Nat) (v : Res HResponse Error)
  | dropped (id : Nat)
deriving DecidableEq, Repr

/-- A `PendingRequest` queued on the synchronizer: an identifier for its
oneshot reply channel, whether the reply receiver is still alive, and
the request. -/
structure Pending where
  id : Nat
  receiver_alive : Bool
  request : HRequest
deriving DecidableEq, Repr

/-- `sender.send(response_to_send)`: completes the oneshot channel when
the receiver is alive; otherwise the send fails and the loop logs the
error (mitm.rs lines 63-66). -/
def completionEvent (id : Nat) (alive : Bool) (v : Res HResponse Error) :
    SyncEvent :=
  if alive then .complete id v else .dropped id

/-- One iteration of the `run` loop (mitm.rs lines 35-67) on a received
`PendingRequest`: rewrite the URI; on failure deliver the error with no
upstream submission; on success submit the rewritten request, await its
response future, and deliver the outcome. -/
def runBlock (upstream : HRequest → Res HResponse Nat) (p : Pending) :
    List SyncEvent :=
  match rewrite_request p.request with
  | .err e => [completionEvent p.id p.receiver_alive (.err e)]
  | .ok r =>
      let v := send_request upstream r
      [.submit r, .resolve v, completionEvent p.id p.receiver_alive v]

/-- `RequestSendingSynchronizer::run`: the while-let loop over the queued
`PendingRequest`s, in FIFO queue order, one at a time. -/
def run (upstream : HRequest → Res HResponse Nat) :
    List Pending → List SyncEvent
  | [] => []
  | p :: rest => runBlock upstream p ++ run upstream rest

/-- The reply-channel completion events (successful completions and
logged failed sends) addressed to channel `id` in a trace. -/
def completionsFor (id : Nat) (t : List SyncEvent) : List SyncEvent :=
  t.filter fun e =>
    match e with
    | .complete i _ => i = id
    | .dropped i => i = id
    | _ => false

/-- The requests submitted to the upstream sender, in trace order. -/
def submitsOf (t : List SyncEvent) : List HRequest :=
  t.filterMap fun e =>
    match e with
    | .submit r => some r
    | _ => none

/-- Checks that no request is submitted to the upstream sender while a
previously submitted request's response future is still unresolved.
`inflight` records whether a submission is pending resolution. -/
def serializedFrom (inflight : Bool) : List SyncEvent → Bool
  | [] => true
  | .submit _ :: rest => !inflight && serializedFrom true rest
  | .resolve _ :: rest => serializedFrom false rest
  | .complete _ _ :: rest => serializedFrom inflight rest
  | .dropped _ :: rest => serializedFrom inflight rest

/-- `ThirdWheel::call` (mitm.rs lines 117-130): create a oneshot channel,
enqueue the pending request on the synchronizer queue, await the reply.
`enqueue_ok` is whether `sender.send(...)` succeeded (it fails only when
the synchronizer task has exited and the receiver is dropped); `reply` is
the value delivered on the oneshot channel, `none` when the reply sender
was dropped before delivering. -/
def third_wheel_call (enqueue_ok : Bool)
    (reply : Option (Res HResponse Error)) : Res HResponse Error :=
  if enqueue_ok then
    match reply with
    | none => .err (.ServerError "Failed to get response from server")
    | some v => v
  else
    .err (.ServerError "Failed to connect to server correctly")

/-- `target_host_port_from_connect` (proxy.rs lines 325-341): extract the
host and the port (stringified) from the CONNECT request's URI. -/
def target_host_port_from_connect (request : HRequest) :
    Res (String × String) Error :=
  match request.uri.host with
  | none => .err (.RequestError "No host found on CONNECT request")
  | some h =>
      match request.uri.port with
      | none => .err (.RequestError "No port found on CONNECT request")
      | some p => .ok (h, toString p)

/-- The per-connection front-end service built by `make_service!`
(proxy.rs lines 54-104): returns the response status sent to the client
and whether a tunnel task was spawned to upgrade the connection. Only
CONNECT is recognized; a CONNECT whose URI lacks host or port gets 400
and no tunnel; otherwise the tunnel task is spawned and 200 is returned. -/
def connect_service (req : HRequest) : Nat × Bool :=
  if req.method = "CONNECT" then
    match target_host_port_from_connect req with
    | .ok _ => (200, true)
    | .err _ => (400, false)
  else
    (400, false)

/-- A `native_tls::Certificate` (the peer certificate returned by the
TLS stream), represented by its DER bytes. -/
structure NativeCert where
  der : List Nat
deriving DecidableEq, Repr

/-- An `openssl::x509::X509` certificate, represented by its DER bytes. -/
structure X509 where
  der : List Nat
deriving DecidableEq, Repr

/-- `native_tls::Certificate::to_der`: serialize the certificate. -/
def NativeCert.to_der (c : NativeCert) : List Nat := c.der

/-- `openssl::x509::X509::from_der` applied to DER bytes emitted by
`to_der` (which always re-parse): the DER round trip in
`connect_to_target_with_tls` (proxy.rs line 320). -/
def x509_from_der (d : List Nat) : X509 := ⟨d⟩

/-- Externally visible actions of `connect_to_target_with_tls`:
the TCP dial (with the address actually dialed), building the TLS
connector, the outbound TLS handshake (with the SNI hostname used), and
querying the peer certificate. -/
inductive ConnectEvent where
  | dial (addr : String)
  | build_connector
  | tls_handshake (host : String)
  | get_peer_cert
deriving DecidableEq, Repr

/-- `connect_to_target_with_tls` (proxy.rs lines 289-323). The
environment outcomes are arguments: `tcp_connect` is
`TcpStream::connect` on the formatted address, `build` is
`connector.build()`, `tls_connect` is the outbound TLS handshake
(invoked with the logical hostname), and `peer_certificate` is
`get_ref().peer_certificate()`. Streams are opaque handles (`Nat`).
Returns the event trace and the result: the TLS stream paired with the
peer's leaf certificate after the DER round trip. -/
def connect_to_target_with_tls (host port : String)
    (additional_host_mapping : List (String × String))
    (tcp_connect : String → Res Nat Error)
    (build : Res Unit Error)
    (tls_connect : String → Nat → Res Nat Error)
    (peer_certificate : Nat → Res (Option NativeCert) Error) :
    List ConnectEvent × Res (Nat × X509) Error :=
  let host_address := (additional_host_mapping.lookup host).getD host
  let addr := host_address ++ ":" ++ port
  match tcp_connect addr with
  | .err e => ([.dial addr], .err e)
  | .ok target_stream =>
      match build with
      | .err e => ([.dial addr, .build_connector], .err e)
      | .ok _ =>
          match tls_connect host target_stream with
          | .err e =>
              ([.dial addr, .build_connector, .tls_handshake host], .err e)
          | .ok tls_stream =>
              let t := [ConnectEvent.dial addr, .build_connector,
                        .tls_handshake host, .get_peer_cert]
              match peer_certificate tls_stream with
              | .err e => (t, .err e)
              | .ok none =>
                  (t, .err (.ServerError
                    "Server did not provide a certificate for TLS connection"))
              | .ok (some cert) =>
                  (t, .ok (tls_stream, x509_from_der cert.to_der))

/-- Externally visible actions of `run_mitm_on_connection`, in program
order: establishing upstream TLS (capturing the origin leaf), spoofing
the captured leaf, building the native identity, constructing the TLS
acceptor, accepting TLS from the client, the upstream HTTP/1.1
handshake, spawning the connection driver, spawning the synchronizer,
and serving the client connection. -/
inductive TunnelEvent where
  | connect_upstream
  | spoof (target_certificate : X509)
  | make_identity
  | new_acceptor
  | accept_client
  | upstream_http_handshake
  | spawn_connection_driver
  | spawn_synchronizer
  | serve
deriving DecidableEq, Repr

/-- `run_mitm_on_connection` (proxy.rs lines 227-287), as a trace of the
steps it performs given the outcome of every fallible environment step:
`connect` is `connect_to_target_with_tls` (stream and captured leaf),
`spoof` is `spoof_certificate(&target_certificate, &ca)`, `identity` is
`native_identity`, `acceptor` is `TlsAcceptor::new`, `accept` is the
client-side TLS accept, `handshake` is the upstream HTTP/1.1 handshake
and `serve` the HTTP server loop outcome. -/
def run_mitm_on_connection
    (connect : Res (Nat × X509) Error)
    (spoof : X509 → Res X509 Error)
    (identity : X509 → Res Nat Error)
    (acceptor : Nat → Res Nat Error)
    (accept : Nat → Res Nat Error)
    (handshake : Res Nat Error)
    (serve : Res Unit Error) :
    List TunnelEvent × Res Unit Error :=
  match connect with
  | .err e => ([.connect_upstream], .err e)
  | .ok (_, target_certificate) =>
      let t1 := [TunnelEvent.connect_upstream, .spoof target_certificate]
      match spoof target_certificate with
      | .err e => (t1, .err e)
      | .ok certificate =>
          let t2 := t1 ++ [TunnelEvent.make_identity]
          match identity certificate with
          | .err e => (t2, .err e)
          | .ok ident =>
              let t3 := t2 ++ [TunnelEvent.new_acceptor]
              match acceptor ident with
              | .err e => (t3, .err e)
              | .ok client =>
                  let t4 := t3 ++ [TunnelEvent.accept_client]
                  match accept client with
                  | .err e => (t4, .err e)
                  | .ok _ =>
                      let t5 := t4 ++ [TunnelEvent.upstream_http_handshake]
                      match handshake with
                      | .err e => (t5, .err e)
                      | .ok _ =>
                          let t6 := t5 ++
                            [TunnelEvent.spawn_connection_driver,
                             .spawn_synchronizer, .serve]
                          match serve with
                          | .err e => (t6, .err e)
                          | .ok _ => (t6, .ok ())

/-- A UTF-8 continuation byte (`0x80..=0xBF`). -/
def isCont (b : Nat) : Bool := 0x80 ≤ b && b ≤ 0xbf

/-- UTF-8 validity of a byte sequence, as checked by Rust's
`String::from_utf8` (the standard encoding: no overlong forms, no
surrogates, no code points above U+10FFFF). -/
def validUtf8 : List Nat → Bool
  | [] => true
  | b :: rest =>
    if b ≤ 0x7f then validUtf8 rest
    else if 0xc2 ≤ b && b ≤ 0xdf then
      match rest with
      | c1 :: r => isCont c1 && validUtf8 r
      | [] => false
    else if b = 0xe0 then
      match rest with
      | c1 :: c2 :: r => (0xa0 ≤ c1 && c1 ≤ 0xbf) && isCont c2 && validUtf8 r
      | _ => false
    else if (0xe1 ≤ b && b ≤ 0xec) || b = 0xee || b = 0xef then
      match rest with
      | c1 :: c2 :: r => isCont c1 && isCont c2 && validUtf8 r
      | _ => false
    else if b = 0xed then
      match rest with
      | c1 :: c2 :: r => (0x80 ≤ c1 && c1 ≤ 0x9f) && isCont c2 && validUtf8 r
      | _ => false
    else if b = 0xf0 then
      match rest with
      | c1 :: c2 :: c3 :: r =>
          (0x90 ≤ c1 && c1 ≤ 0xbf) && isCont c2 && isCont c3 && validUtf8 r
      | _ => false
    else if 0xf1 ≤ b && b ≤ 0xf3 then
      match rest with
      | c1 :: c2 :: c3 :: r =>
          isCont c1 && isCont c2 && isCont c3 && validUtf8 r
      | _ => false
    else if b = 0xf4 then
      match rest with
      | c1 :: c2 :: c3 :: r =>
          (0x80 ≤ c1 && c1 ≤ 0x8f) && isCont c2 && isCont c3 && validUtf8 r
      | _ => false
    else false

/-- Rust `String::from_utf8` over body bytes: the bytes themselves when
they are valid UTF-8 (a Rust `String` is its UTF-8 bytes, so the decode
is byte-preserving and `String::len` is the byte count), an error
otherwise. -/
def string_from_utf8 (b : List Nat) : Res (List Nat) Unit :=
  if validUtf8 b then .ok b else .err ()

/-- The `match String::from_utf8(body)` in the HAR copy functions: the
decoded body on success, the empty string after logging on failure. -/
def body_or_empty (body : List Nat) : List Nat :=
  match string_from_utf8 body with
  | .ok s => s
  | .err _ => []

/-- First header value for a (lowercase) header name:
`parts.headers.iter().filter(key == NAME).next()`. -/
def header_value (headers : List (String × String)) (name : String) :
    Option String :=
  (headers.find? fun kv => kv.1 = name).map (fun kv => kv.2)

/-- HAR 1.2 `PostData` (the fields the source fills). -/
structure HarPostData where
  mime_type : String
  text : Option (List Nat)
deriving DecidableEq, Repr

/-- HAR 1.2 `Request`, with the fields `copy_from_http_request_to_har`
fills. Cookie header values are carried as raw strings (the cookie
library's parsing is outside the embedding). -/
structure HarRequest where
  method : String
  url : String
  http_version : String
  cookies : List String
  headers : List (String × String)
  headers_size : Int
  body_size : Int
  post_data : Option HarPostData
deriving DecidableEq, Repr

/-- HAR 1.2 `Content`. -/
structure HarContent where
  size : Int
  mime_type : Option String
  text : Option (List Nat)
deriving DecidableEq, Repr

/-- HAR 1.2 `Response`, with the fields `copy_from_http_response_to_har`
fills. -/
structure HarResponse where
  http_version : String
  status : Nat
  cookies : List String
  headers : List (String × String)
  headers_size : Int
  body_size : Int
  redirect_url : Option String
  content : HarContent
deriving DecidableEq, Repr

/-- `format!("\x7b\x7d", parts.uri)`: hyper's `Display` for `Uri`. -/
def uriToString (u : Uri) : String :=
  (match u.scheme with
   | some s => s ++ "://"
   | none => "") ++
  (u.authority.getD "") ++
  (u.path_and_query.getD "")

/-- `headers.iter().fold(0, |sum, h| sum + name.len() + value.len())`
(lengths are Rust byte lengths). -/
def headersSize (headers : List (String × String)) : Int :=
  headers.foldl
    (fun sum kv =>
      sum + ((kv.1.utf8ByteSize : Int) + (kv.2.utf8ByteSize : Int))) 0

/-- The request parts (`hyper::http::request::Parts`). -/
structure RequestParts where
  method : String
  uri : Uri
  headers : List (String × String)
deriving DecidableEq, Repr

/-- The response parts (`hyper::http::response::Parts`). -/
structure ResponseParts where
  status : Nat
  headers : List (String × String)
deriving DecidableEq, Repr

/-- `copy_from_http_request_to_har` (utilities.rs lines 24-88): build the
HAR request record. A non-UTF-8 body is replaced by the empty string, so
its recorded size is 0 and no `post_data` is emitted. -/
def copy_from_http_request_to_har (parts : RequestParts)
    (body : List Nat) : HarRequest :=
  let bodyStr := body_or_empty body
  let body_size : Int := (bodyStr.length : Int)
  let mime_type := (header_value parts.headers "content-type").getD ""
  { method := parts.method
    url := uriToString parts.uri
    http_version := "HTTP/1.1"
    cookies := (parts.headers.filter fun kv => kv.1 = "cookie").map
      (fun kv => kv.2)
    headers := parts.headers
    headers_size := headersSize parts.headers
    body_size := body_size
    post_data :=
      if body_size > 0 then
        some { mime_type := mime_type, text := some bodyStr }
      else
        none }

/-- `StatusCode::is_redirection`: `300..=399`. -/
def isRedirection (status : Nat) : Bool := 300 ≤ status && status ≤ 399

/-- `copy_from_http_response_to_har` (utilities.rs lines 98-180): build
the HAR response record; a non-UTF-8 body is recorded as the empty
string with size 0. -/
def copy_from_http_response_to_har (parts : ResponseParts)
    (body : List Nat) : HarResponse :=
  let mime_type := (header_value parts.headers "content-type").getD ""
  let redirect_url :=
    if isRedirection parts.status then
      (header_value parts.headers "location").getD ""
    else
      ""
  let bodyStr := body_or_empty body
  let body_size : Int := (bodyStr.length : Int)
  { http_version := "HTTP/1.1"
    status := parts.status
    cookies := (parts.headers.filter fun kv => kv.1 = "set-cookie").map
      (fun kv => kv.2)
    headers := parts.headers
    headers_size := headersSize parts.headers
    body_size := body_size
    redirect_url := some redirect_url
    content := { size := body_size, mime_type := some mime_type,
                 text := some bodyStr } }

/-- A `serde_json::Value`. Numbers are restricted to integers in the
embedding (the bodies the source inspects carry no fractional numbers);
objects are association lists with distinct keys, as produced by the
parser. -/
inductive Json where
  | null
  | bool (b : Bool)
  | num (n : Int)
  | str (s : String)
  | arr (xs : List Json)
  | obj (kvs : List (String × Json))

/-- `Value::get` / `Value::get_mut` with a string key: field lookup on an
object, `None` on every other variant. -/
def jsonGet (v : Json) (key : String) : Option Json :=
  match v with
  | .obj kvs => (kvs.find? fun kv => kv.1 = key).map (fun kv => kv.2)
  | _ => none

/-- `value[0]` in a mutable position (serde's `IndexMut`): the first
element of an array; panics (modelled as `none`) on a non-array or an
empty array. -/
def jsonIndex0Mut (v : Json) : Option Json :=
  match v with
  | .arr (x :: _) => some x
  | _ => none

/-- `value[0]` in a shared position (serde's `Index`): the first element
of an array, `Null` on anything else. -/
def jsonIndex0 (v : Json) : Json :=
  match v with
  | .arr (x :: _) => x
  | _ => .null

/-- One hex digit, lowercase, as serde prints in escapes. -/
def hexDigit (n : Nat) : Char :=
  if n < 10 then Char.ofNat (48 + n) else Char.ofNat (87 + n)

/-- serde's JSON string escaping for one character: quote and backslash
are escaped, control characters use the short escapes or a lowercase
unicode escape. -/
def escapeChar (c : Char) : String :=
  if c = '"' then "\\\""
  else if c = '\\' then "\\\\"
  else if c = '\x08' then "\\b"
  else if c = '\x09' then "\\t"
  else if c = '\x0a' then "\\n"
  else if c = '\x0c' then "\\f"
  else if c = '\x0d' then "\\r"
  else if c.toNat < 0x20 then
    "\\u00" ++ String.mk [hexDigit (c.toNat / 16), hexDigit (c.toNat % 16)]
  else
    String.mk [c]

/-- The body of a serde-printed JSON string literal. -/
def escapeString (s : String) : String :=
  s.data.foldl (fun acc c => acc ++ escapeChar c) ""

mutual

/-- `Value::to_string`: serde_json's compact `Display` rendering. -/
def jsonToString : Json → String
  | .null => "null"
  | .bool true => "true"
  | .bool false => "false"
  | .num n => toString n
  | .str s => "\"" ++ escapeString s ++ "\""
  | .arr xs => "[" ++ jsonListToString xs ++ "]"
  | .obj kvs => "\x7b" ++ jsonObjToString kvs ++ "\x7d"

/-- Comma-separated rendering of array elements. -/
def jsonListToString : List Json → String
  | [] => ""
  | [x] => jsonToString x
  | x :: y :: rest => jsonToString x ++ "," ++ jsonListToString (y :: rest)

/-- Comma-separated rendering of object members. -/
def jsonObjToString : List (String × Json) → String
  | [] => ""
  | [kv] => "\"" ++ escapeString kv.1 ++ "\":" ++ jsonToString kv.2
  | kv :: kv2 :: rest =>
      "\"" ++ escapeString kv.1 ++ "\":" ++ jsonToString kv.2 ++ "," ++
        jsonObjToString (kv2 :: rest)

end

/-- `convert_body_to_json` (utilities.rs lines 216-234, main.rs lines
254-272). The argument is the outcome of the serde_json parse of the
body string: `none` when the body is not valid JSON — in particular when
it is not UTF-8, since a non-UTF-8 body is first replaced by the empty
string, which fails to parse. The function yields the parsed value, or
`Value::Null` on failure. -/
def convert_body_to_json (parsed : Option Json) : Json :=
  parsed.getD .null

/-- `parse_request` (utilities.rs lines 243-255, main.rs lines 281-293).
`none` models a panic: after the `messages` key is found, the chain
`message[0].get_mut("content").unwrap()` / `.get_mut("parts").unwrap()`
unwraps options that can be `None` (and serde's `IndexMut` panics on a
non-array or empty `messages`); no value is returned there. When the
whole path is present the string form of `messages[0].content.parts[0]`
is returned; when the `messages` key is absent the empty string is. -/
def parse_request (parsed : Option Json) : Option String :=
  let body := convert_body_to_json parsed
  match jsonGet body "messages" with
  | some message =>
      match jsonIndex0Mut message with
      | none => none
      | some m0 =>
          match jsonGet m0 "content" with
          | none => none
          | some content =>
              match jsonGet content "parts" with
              | none => none
              | some parts => some (jsonToString (jsonIndex0 parts))
  | none => some ""

/-! ## Helper lemmas -/

theorem completionsFor_append (id : Nat) (a b : List SyncEvent) :
    completionsFor id (a ++ b) = completionsFor id a ++ completionsFor id b := by
  simp [completionsFor]

theorem completionsFor_runBlock (u : HRequest → Res HResponse Nat)
    (p : Pending) (id : Nat) :
    completionsFor id (runBlock u p) =
      if p.id = id then
        [completionEvent p.id p.receiver_alive (expected_reply u p.request)]
      else [] := by
  rcases p with ⟨pid, alive, req⟩
  cases h : rewrite_request req <;>
    cases alive <;> by_cases hid : pid = id <;>
      simp [runBlock, completionsFor, completionEvent, expected_reply, h, hid]

theorem completionsFor_run_of_not_mem (u : HRequest → Res HResponse Nat)
    (id : Nat) (q : List Pending) (h : id ∉ q.map Pending.id) :
    completionsFor id (run u q) = [] := by
  induction q with
  | nil => rfl
  | cons p rest ih =>
      simp only [List.map_cons, List.mem_cons, not_or] at h
      simp only [run]
      rw [completionsFor_append, completionsFor_runBlock,
        if_neg (fun hh => h.1 hh.symm), ih h.2, List.nil_append]

theorem expected_reply_ok_iff (u : HRequest → Res HResponse Nat)
    (req : HRequest) (resp : HResponse) :
    expected_reply u req = .ok resp ↔
      ∃ r, rewrite_request req = .ok r ∧ u r = .ok resp := by
  cases h : rewrite_request req with
  | err e => simp [expected_reply, h]
  | ok r => cases hu : u r <;> simp [expected_reply, send_request, h, hu]

theorem submitsOf_append (a b : List SyncEvent) :
    submitsOf (a ++ b) = submitsOf a ++ submitsOf b := by
  simp [submitsOf]

theorem submitsOf_runBlock (u : HRequest → Res HResponse Nat) (p : Pending) :
    submitsOf (runBlock u p) =
      match rewrite_request p.request with
      | .ok r => [r]
      | .err _ => [] := by
  cases h : rewrite_request p.request <;>
    cases halive : p.receiver_alive <;>
      simp [runBlock, submitsOf, completionEvent, h, halive]

theorem serializedFrom_runBlock_append (u : HRequest → Res HResponse Nat)
    (p : Pending) (t : List SyncEvent) :
    serializedFrom false (runBlock u p ++ t) = serializedFrom false t := by
  cases h : rewrite_request p.request <;>
    cases halive : p.receiver_alive <;>
      simp [runBlock, completionEvent, h, halive, serializedFrom]

theorem parseOriginFormUri_some {s : String} {u : Uri}
    (h : parseOriginFormUri s = some u) :
    u = ⟨none, none, some s, none, none⟩ := by
  simp only [parseOriginFormUri] at h
  split at h
  · exact (Option.some_inj.mp h).symm
  · cases h

theorem rewrite_request_ok_spec {req r : HRequest}
    (h : rewrite_request req = .ok r) :
    r.method = req.method ∧ r.body = req.body ∧
    r.headers = req.headers.filter (fun kv => kv.1 ≠ "proxy-connection") ∧
    r.uri.scheme = none ∧ r.uri.authority = none ∧
    r.uri.path_and_query = req.uri.path_and_query := by
  cases hpaq : req.uri.path_and_query with
  | none => simp [rewrite_request, hpaq] at h
  | some paq =>
      cases hp : parseOriginFormUri paq with
      | none => simp [rewrite_request, hpaq, hp] at h
      | some nu =>
          have hnu := parseOriginFormUri_some hp
          subst hnu
          simp [rewrite_request, hpaq, hp] at h
          subst h
          simp [hpaq]

theorem proxy_connection_not_mem (headers : List (String × String)) :
    "proxy-connection" ∉
      (headers.filter fun kv => kv.1 ≠ "proxy-connection").map Prod.fst := by
  intro hmem
  rcases List.mem_map.mp hmem with ⟨kv, hkv, hfst⟩
  rcases List.mem_filter.mp hkv with ⟨_, hpred⟩
  simp only [ne_eq, decide_not, Bool.not_eq_true', decide_eq_false_iff_not]
    at hpred
  exact hpred hfst

theorem submit_mem_runBlock {u : HRequest → Res HResponse Nat} {p : Pending}
    {r : HRequest} (h : SyncEvent.submit r ∈ runBlock u p) :
    rewrite_request p.request = .ok r := by
  cases hrw : rewrite_request p.request with
  | err e =>
      rw [runBlock, hrw] at h
      cases halive : p.receiver_alive <;>
        simp [completionEvent, halive] at h
  | ok r' =>
      rw [runBlock, hrw] at h
      cases halive : p.receiver_alive <;>
        simp [completionEvent, halive] at h <;> simp [h]

/-! ## Sample values for the witnesses -/

/-- An upstream sender that always answers 200 with an empty body. -/
def sampleUpstream : HRequest → Res HResponse Nat :=
  fun _ => .ok ⟨200, [], []⟩

/-- An absolute-form request as a client sends it to the proxy, with a
`proxy-connection` header. -/
def sampleRequest : HRequest :=
  ⟨"GET",
   ⟨some "https", some "example.com", some "/a?b=c", some "example.com",
    some 443⟩,
   [("proxy-connection", "keep-alive"), ("host", "example.com")],
   [1, 2]⟩

/-- `sampleRequest` after the synchronizer's rewrite: origin-form URI,
`proxy-connection` removed. -/
def sampleRewritten : HRequest :=
  ⟨"GET", ⟨none, none, some "/a?b=c", none, none⟩,
   [("host", "example.com")], [1, 2]⟩

/-! ## Theorems -/

/-- C1: for every PendingRequest received by the synchronizer's run loop
(with distinct reply-channel ids), the loop produces exactly one
reply-channel completion action for it: a successful completion carrying
`Ok(response)` exactly when the rewritten request was submitted and a
response arrived (`Err` otherwise) while the receiver is alive, and a
logged failed send when the receiver has been dropped — after which, the
loop having no other completion for that id and every other queued
request keeping its own single completion, processing continues; the
loop is a total function, so it never panics. -/
theorem claim_c1 :
    ∀ (u : HRequest → Res HResponse Nat) (q : List Pending) (p : Pending),
      p ∈ q → (q.map Pending.id).Nodup →
      completionsFor p.id (run u q) =
        [completionEvent p.id p.receiver_alive (expected_reply u p.request)] ∧
      (∀ resp, expected_reply u p.request = .ok resp ↔
        ∃ r, rewrite_request p.request = .ok r ∧ u r = .ok resp) := by
  intro u q p hmem hnodup
  refine ⟨?_, fun resp => expected_reply_ok_iff u p.request resp⟩
  induction q with
  | nil => simp at hmem
  | cons p0 rest ih =>
      rw [List.map_cons, List.nodup_cons] at hnodup
      rcases List.mem_cons.mp hmem with heq | hmem'
      · subst heq
        simp only [run]
        rw [completionsFor_append, completionsFor_runBlock, if_pos rfl,
          completionsFor_run_of_not_mem u p.id rest hnodup.1,
          List.append_nil]
      · have hne : p0.id ≠ p.id := by
          intro hh
          have hmemid : p.id ∈ rest.map Pending.id :=
            List.mem_map_of_mem Pending.id hmem'
          exact hnodup.1 (hh ▸ hmemid)
        simp only [run]
        rw [completionsFor_append, completionsFor_runBlock, if_neg hne,
          List.nil_append]
        exact ih hmem' hnodup.2

/-- Witness for C1: a queue of two requests with distinct channel ids; the
first receiver is alive and gets the 200 response delivered once, the
second has been dropped and yields a single logged failed send — the loop
having continued past it. -/
theorem claim_c1_witness :
    completionsFor 0
        (run sampleUpstream
          [⟨0, true, sampleRequest⟩, ⟨1, false, sampleRequest⟩]) =
      [.complete 0 (.ok ⟨200, [], []⟩)] ∧
    completionsFor 1
        (run sampleUpstream
          [⟨0, true, sampleRequest⟩, ⟨1, false, sampleRequest⟩]) =
      [.dropped 1] := by
  constructor
  · have h := (claim_c1 sampleUpstream
      [⟨0, true, sampleRequest⟩, ⟨1, false, sampleRequest⟩]
      ⟨0, true, sampleRequest⟩ (by decide) (by decide)).1
    simpa [completionEvent, expected_reply, rewrite_request, sampleRequest,
      sampleUpstream, send_request, parseOriginFormUri] using h
  · have h := (claim_c1 sampleUpstream
      [⟨0, true, sampleRequest⟩, ⟨1, false, sampleRequest⟩]
      ⟨1, false, sampleRequest⟩ (by decide) (by decide)).1
    simpa [completionEvent] using h

/-- C2: the synchronizer processes queued PendingRequests strictly in
FIFO enqueue order — the submitted requests are exactly the successfully
rewritten queued requests, in queue order — and no request is submitted
to the upstream sender while an earlier submission's response future is
unresolved. -/
theorem claim_c2 :
    ∀ (u : HRequest → Res HResponse Nat) (q : List Pending),
      submitsOf (run u q) =
        q.filterMap (fun p =>
          match rewrite_request p.request with
          | .ok r => some r
          | .err _ => none) ∧
      serializedFrom false (run u q) = true := by
  intro u q
  constructor
  · induction q with
    | nil => rfl
    | cons p rest ih =>
        simp only [run]
        rw [submitsOf_append, submitsOf_runBlock]
        cases h : rewrite_request p.request <;>
          simp [List.filterMap_cons, h, ih]
  · induction q with
    | nil => rfl
    | cons p rest ih =>
        simp only [run]
        rw [serializedFrom_runBlock_append]
        exact ih

/-- C3: every request the synchronizer submits to the upstream sender
comes from a queued PendingRequest; its URI is the origin-form
path-and-query of the incoming request's URI (scheme and authority
stripped), its header map is the incoming one with every
`proxy-connection` entry removed (hence contains no `proxy-connection`
header), and its method and body are those of the incoming request. -/
theorem claim_c3 :
    ∀ (u : HRequest → Res HResponse Nat) (q : List Pending) (r : HRequest),
      SyncEvent.submit r ∈ run u q →
      ∃ p, p ∈ q ∧ rewrite_request p.request = .ok r ∧
        r.method = p.request.method ∧ r.body = p.request.body ∧
        r.headers =
          p.request.headers.filter (fun kv => kv.1 ≠ "proxy-connection") ∧
        "proxy-connection" ∉ r.headers.map Prod.fst ∧
        r.uri.scheme = none ∧ r.uri.authority = none ∧
        r.uri.path_and_query = p.request.uri.path_and_query := by
  intro u q r hmem
  induction q with
  | nil => simp [run] at hmem
  | cons p0 rest ih =>
      rw [run] at hmem
      rcases List.mem_append.mp hmem with h | h
      · have hrw := submit_mem_runBlock h
        obtain ⟨hm, hb, hh, hs, ha, hpq⟩ := rewrite_request_ok_spec hrw
        refine ⟨p0, List.mem_cons_self p0 rest, hrw, hm, hb, hh, ?_, hs,
          ha, hpq⟩
        rw [hh]
        exact proxy_connection_not_mem p0.request.headers
      · rcases ih h with ⟨p, hp, hrest⟩
        exact ⟨p, List.mem_cons_of_mem p0 hp, hrest⟩

/-- Witness for C3: on a one-element queue holding `sampleRequest` (an
absolute-form URI and a `proxy-connection` header), the submitted request
is `sampleRewritten` and satisfies all the stated properties. -/
theorem claim_c3_witness :
    SyncEvent.submit sampleRewritten ∈
      run sampleUpstream [⟨0, true, sampleRequest⟩] ∧
    ∃ p, p ∈ [(⟨0, true, sampleRequest⟩ : Pending)] ∧
      rewrite_request p.request = .ok sampleRewritten ∧
      sampleRewritten.method = p.request.method ∧
      sampleRewritten.body = p.request.body ∧
      sampleRewritten.headers =
        p.request.headers.filter (fun kv => kv.1 ≠ "proxy-connection") ∧
      "proxy-connection" ∉ sampleRewritten.headers.map Prod.fst ∧
      sampleRewritten.uri.scheme = none ∧
      sampleRewritten.uri.authority = none ∧
      sampleRewritten.uri.path_and_query =
        p.request.uri.path_and_query :=
  ⟨by decide,
   claim_c3 sampleUpstream [⟨0, true, sampleRequest⟩] sampleRewritten
     (by decide)⟩

/-- C4: for every PendingRequest whose incoming URI has no path-and-query
component, the synchronizer's loop iteration delivers
`Err(RequestError("URI did not contain a path"))` on the reply channel
and submits nothing upstream (the whole iteration trace is that single
completion); when the path-and-query string fails to re-parse it delivers
`Err(RequestError("Given URI was invalid"))`, again submitting nothing;
and a transport error `t` from the upstream sender is propagated to the
reply channel (wrapped as `HyperError t` by `e.into()`). -/
theorem claim_c4 :
    ∀ (u : HRequest → Res HResponse Nat) (id : Nat) (alive : Bool)
      (req : HRequest),
      (req.uri.path_and_query = none →
        runBlock u ⟨id, alive, req⟩ =
          [completionEvent id alive
            (.err (.RequestError "URI did not contain a path"))]) ∧
      (∀ paq, req.uri.path_and_query = some paq →
        parseOriginFormUri paq = none →
        runBlock u ⟨id, alive, req⟩ =
          [completionEvent id alive
            (.err (.RequestError "Given URI was invalid"))]) ∧
      (∀ r t, rewrite_request req = .ok r → u r = .err t →
        runBlock u ⟨id, alive, req⟩ =
          [.submit r, .resolve (.err (.HyperError t)),
           completionEvent id alive (.err (.HyperError t))]) := by
  intro u id alive req
  refine ⟨fun h => ?_, fun paq h1 h2 => ?_, fun r t h1 h2 => ?_⟩
  · simp [runBlock, rewrite_request, h]
  · simp [runBlock, rewrite_request, h1, h2]
  · simp [runBlock, h1, send_request, h2]

/-- Witness for C4: concrete instances of the three error paths. The
request with URI `*` has no path-and-query; the request whose
path-and-query is `" "` fails to re-parse; the request with
path-and-query `/a` reaches an upstream sender that fails with transport
error 7. -/
theorem claim_c4_witness :
    runBlock (fun _ => .err 7)
        ⟨0, true, ⟨"GET", ⟨none, none, none, none, none⟩, [], []⟩⟩ =
      [.complete 0 (.err (.RequestError "URI did not contain a path"))] ∧
    runBlock (fun _ => .err 7)
        ⟨1, true, ⟨"GET", ⟨none, none, some " ", none, none⟩, [], []⟩⟩ =
      [.complete 1 (.err (.RequestError "Given URI was invalid"))] ∧
    runBlock (fun _ => .err 7)
        ⟨2, true, ⟨"GET", ⟨none, none, some "/a", none, none⟩, [], []⟩⟩ =
      [.submit ⟨"GET", ⟨none, none, some "/a", none, none⟩, [], []⟩,
       .resolve (.err (.HyperError 7)),
       .complete 2 (.err (.HyperError 7))] :=
  ⟨(claim_c4 (fun _ => .err 7) 0 true _).1 rfl,
   (claim_c4 (fun _ => .err 7) 1 true _).2.1 " " rfl (by decide),
   (claim_c4 (fun _ => .err 7) 2 true _).2.2
     ⟨"GET", ⟨none, none, some "/a", none, none⟩, [], []⟩ 7 (by decide) rfl⟩

/-- C5: `ThirdWheel::call` yields
`ServerError("Failed to connect to server correctly")` when the enqueue
onto the synchronizer queue fails because the synchronizer has exited,
`ServerError("Failed to get response from server")` when the enqueue
succeeds but the oneshot reply channel is dropped before delivering, and
otherwise exactly the value delivered on the reply channel. -/
theorem claim_c5 :
    ∀ (reply : Option (Res HResponse Error)) (v : Res HResponse Error),
      third_wheel_call false reply =
        .err (.ServerError "Failed to connect to server correctly") ∧
      third_wheel_call true none =
        .err (.ServerError "Failed to get response from server") ∧
      third_wheel_call true (some v) = v := by
  intro reply v
  exact ⟨rfl, rfl, rfl⟩

/-- C6: the per-connection front-end service answers 400 to any
non-CONNECT request; a CONNECT whose URI lacks a host or lacks a port
makes `target_host_port_from_connect` yield a `RequestError` and the
service answers 400 without spawning a tunnel task; a CONNECT with both
host and port gets 200 and a tunnel task is spawned. -/
theorem claim_c6 :
    ∀ req : HRequest,
      (req.method ≠ "CONNECT" → connect_service req = (400, false)) ∧
      (req.method = "CONNECT" →
        (req.uri.host = none ∨ req.uri.port = none) →
        (∃ msg, target_host_port_from_connect req =
          .err (.RequestError msg)) ∧ connect_service req = (400, false)) ∧
      (req.method = "CONNECT" → ∀ h p, req.uri.host = some h →
        req.uri.port = some p →
        target_host_port_from_connect req = .ok (h, toString p) ∧
        connect_service req = (200, true)) := by
  intro req
  refine ⟨fun h => ?_, fun hm hmiss => ?_, fun hm h p hh hp => ?_⟩
  · simp [connect_service, h]
  · have htgt : ∃ msg, target_host_port_from_connect req =
        .err (.RequestError msg) := by
      rcases hmiss with hh | hp
      · exact ⟨"No host found on CONNECT request",
          by simp [target_host_port_from_connect, hh]⟩
      · cases hhost : req.uri.host with
        | none => exact ⟨"No host found on CONNECT request",
            by simp [target_host_port_from_connect, hhost]⟩
        | some h => exact ⟨"No port found on CONNECT request",
            by simp [target_host_port_from_connect, hhost, hp]⟩
    rcases htgt with ⟨msg, hmsg⟩
    exact ⟨⟨msg, hmsg⟩, by simp [connect_service, hm, hmsg]⟩
  · have htgt : target_host_port_from_connect req = .ok (h, toString p) := by
      simp [target_host_port_from_connect, hh, hp]
    exact ⟨htgt, by simp [connect_service, hm, htgt]⟩

/-- Witness for C6: a GET is refused with 400; a CONNECT without port is
refused with 400 and a `RequestError`; a CONNECT to example.com:443 gets
200 with a tunnel spawned. -/
theorem claim_c6_witness :
    connect_service ⟨"GET", ⟨none, none, some "/", none, none⟩, [], []⟩ =
      (400, false) ∧
    ((∃ msg, target_host_port_from_connect
        ⟨"CONNECT", ⟨none, some "example.com", none, some "example.com",
          none⟩, [], []⟩ = .err (.RequestError msg)) ∧
      connect_service
        ⟨"CONNECT", ⟨none, some "example.com", none, some "example.com",
          none⟩, [], []⟩ = (400, false)) ∧
    target_host_port_from_connect
        ⟨"CONNECT", ⟨none, some "example.com:443", none,
          some "example.com", some 443⟩, [], []⟩ =
      .ok ("example.com", "443") ∧
    connect_service
        ⟨"CONNECT", ⟨none, some "example.com:443", none,
          some "example.com", some 443⟩, [], []⟩ = (200, true) :=
  ⟨(claim_c6 _).1 (by decide),
   (claim_c6 _).2.1 rfl (Or.inr rfl),
   (claim_c6 _).2.2 rfl "example.com" 443 rfl rfl⟩

/-- C7: in the tunnel orchestration the upstream TLS connection (with its
leaf certificate capture) comes strictly before certificate spoofing and
before TLS is accepted from the client: every trace starts with
`connect_upstream`; if the upstream step fails the function returns that
error with a trace that contains no client-side TLS accept (nor a spoof);
and whenever the client accept occurs, the upstream connect succeeded and
the trace begins with the upstream connect followed by the spoof of the
captured leaf, the client accept coming only later. -/
theorem claim_c7 :
    ∀ (connect : Res (Nat × X509) Error) (spoof : X509 → Res X509 Error)
      (identity : X509 → Res Nat Error) (acceptor : Nat → Res Nat Error)
      (accept : Nat → Res Nat Error) (handshake : Res Nat Error)
      (serve : Res Unit Error),
      (run_mitm_on_connection connect spoof identity acceptor accept
          handshake serve).1.head? = some .connect_upstream ∧
      (∀ e, connect = .err e →
        run_mitm_on_connection connect spoof identity acceptor accept
            handshake serve = ([.connect_upstream], .err e)) ∧
      (TunnelEvent.accept_client ∈
          (run_mitm_on_connection connect spoof identity acceptor accept
            handshake serve).1 →
        ∃ s c, connect = .ok (s, c) ∧
          (run_mitm_on_connection connect spoof identity acceptor accept
            handshake serve).1.take 2 = [.connect_upstream, .spoof c]) := by
  intro connect spoof identity acceptor accept handshake serve
  rcases connect with ⟨s, c⟩ | e
  · have h2 : (run_mitm_on_connection (.ok (s, c)) spoof identity acceptor
        accept handshake serve).1.take 2 =
        [TunnelEvent.connect_upstream, TunnelEvent.spoof c] := by
      rcases hsp : spoof c with c2 | e2
      · rcases hid : identity c2 with i | e3
        · rcases hac : acceptor i with cl | e4
          · rcases hacc : accept cl with a | e5
            · rcases hhs : handshake with hs | e6
              · rcases hsv : serve with sv | e7 <;>
                  simp [run_mitm_on_connection, hsp, hid, hac, hacc, hhs,
                    hsv]
              · simp [run_mitm_on_connection, hsp, hid, hac, hacc, hhs]
            · simp [run_mitm_on_connection, hsp, hid, hac, hacc]
          · simp [run_mitm_on_connection, hsp, hid, hac]
        · simp [run_mitm_on_connection, hsp, hid]
      · simp [run_mitm_on_connection, hsp]
    have hhd : (run_mitm_on_connection (.ok (s, c)) spoof identity acceptor
        accept handshake serve).1.head? = some .connect_upstream := by
      cases htr : (run_mitm_on_connection (.ok (s, c)) spoof identity
          acceptor accept handshake serve).1 with
      | nil => rw [htr] at h2; cases h2
      | cons x xs =>
          rw [htr] at h2
          simp only [List.take_succ_cons, List.cons.injEq] at h2
          simp [h2.1]
    refine ⟨hhd, ?_, fun hmem => ⟨s, c, rfl, h2⟩⟩
    intro e he
    cases he
  · exact ⟨by rfl, fun e' he => by cases he; rfl,
      fun hmem => by simp [run_mitm_on_connection] at hmem⟩

/-- Witness for C7: a failing upstream connect produces the one-event
trace and the error with no client accept; and a fully successful
environment yields a trace whose client accept is preceded by the
upstream connect and the spoof of the captured certificate. -/
theorem claim_c7_witness :
    run_mitm_on_connection (.err (.ServerError "down"))
        (fun c => .ok c) (fun _ => .ok 1) (fun _ => .ok 2) (fun _ => .ok 3)
        (.ok 4) (.ok ()) = ([.connect_upstream], .err (.ServerError "down")) ∧
    (∃ s c, (Res.ok ((5 : Nat), X509.mk [1])
        : Res (Nat × X509) Error) = .ok (s, c) ∧
      (run_mitm_on_connection (.ok (5, X509.mk [1]))
        (fun c => .ok c) (fun _ => .ok 1) (fun _ => .ok 2) (fun _ => .ok 3)
        (.ok 4) (.ok ())).1.take 2 = [.connect_upstream, .spoof c]) :=
  ⟨(claim_c7 (.err (.ServerError "down")) (fun c => .ok c) (fun _ => .ok 1)
      (fun _ => .ok 2) (fun _ => .ok 3) (.ok 4) (.ok ())).2.1
    (.ServerError "down") rfl,
   (claim_c7 (.ok (5, X509.mk [1])) (fun c => .ok c) (fun _ => .ok 1)
      (fun _ => .ok 2) (fun _ => .ok 3) (.ok 4) (.ok ())).2.2 (by decide)⟩

/-- C8: `connect_to_target_with_tls` dials the address mapped from the
hostname by `additional_host_mapping` when a mapping is present and
`host:port` otherwise; when the completed handshake reports no peer
certificate it returns a `ServerError`; and when a peer certificate is
present it returns the TLS stream together with the leaf obtained by the
DER round trip (`X509::from_der` of `Certificate::to_der`), preserving
the DER bytes. -/
theorem claim_c8 :
    ∀ (host port : String) (hm : List (String × String))
      (tcp_connect : String → Res Nat Error) (build : Res Unit Error)
      (tls_connect : String → Nat → Res Nat Error)
      (peer_certificate : Nat → Res (Option NativeCert) Error),
      (∀ a, hm.lookup host = some a →
        (connect_to_target_with_tls host port hm tcp_connect build
            tls_connect peer_certificate).1.head? =
          some (.dial (a ++ ":" ++ port))) ∧
      (hm.lookup host = none →
        (connect_to_target_with_tls host port hm tcp_connect build
            tls_connect peer_certificate).1.head? =
          some (.dial (host ++ ":" ++ port))) ∧
      (∀ s s2, tcp_connect (((hm.lookup host).getD host) ++ ":" ++ port) =
          .ok s → build = .ok () → tls_connect host s = .ok s2 →
        (peer_certificate s2 = .ok none →
          (connect_to_target_with_tls host port hm tcp_connect build
              tls_connect peer_certificate).2 =
            .err (.ServerError
              "Server did not provide a certificate for TLS connection")) ∧
        (∀ c, peer_certificate s2 = .ok (some c) →
          (connect_to_target_with_tls host port hm tcp_connect build
              tls_connect peer_certificate).2 =
            .ok (s2, x509_from_der c.to_der) ∧
          (x509_from_der c.to_der).der = c.der)) := by
  intro host port hm tcp_connect build tls_connect peer_certificate
  have hhead : (connect_to_target_with_tls host port hm tcp_connect build
      tls_connect peer_certificate).1.head? =
      some (.dial (((hm.lookup host).getD host) ++ ":" ++ port)) := by
    rcases htc : tcp_connect (((hm.lookup host).getD host) ++ ":" ++ port)
        with s | e
    · rcases hb : build with b | e2
      · rcases htl : tls_connect host s with s2 | e3
        · rcases hp : peer_certificate s2 with (_ | c) | e4 <;>
            simp [connect_to_target_with_tls, htc, hb, htl, hp]
        · simp [connect_to_target_with_tls, htc, hb, htl]
      · simp [connect_to_target_with_tls, htc, hb]
    · simp [connect_to_target_with_tls, htc]
  refine ⟨fun a ha => by rw [hhead, ha]; rfl, fun ha => by rw [hhead, ha]; rfl,
    fun s s2 hs hb hs2 => ⟨fun hp => ?_, fun c hp => ⟨?_, rfl⟩⟩⟩ <;>
    simp [connect_to_target_with_tls, hs, hb, hs2, hp]

/-- Witness for C8: with a host mapping sending example.com to 127.0.0.1,
the dial goes to 127.0.0.1:443; without it, to example.com:443; a
handshake with no peer certificate yields the ServerError; one with a
peer certificate yields the stream and the DER round-tripped leaf. -/
theorem claim_c8_witness :
    (connect_to_target_with_tls "example.com" "443"
        [("example.com", "127.0.0.1")] (fun _ => .ok 1) (.ok ())
        (fun _ _ => .ok 2) (fun _ => .ok none)).1.head? =
      some (.dial "127.0.0.1:443") ∧
    (connect_to_target_with_tls "example.com" "443" []
        (fun _ => .ok 1) (.ok ()) (fun _ _ => .ok 2)
        (fun _ => .ok none)).1.head? = some (.dial "example.com:443") ∧
    (connect_to_target_with_tls "example.com" "443" []
        (fun _ => .ok 1) (.ok ()) (fun _ _ => .ok 2)
        (fun _ => .ok none)).2 =
      .err (.ServerError
        "Server did not provide a certificate for TLS connection") ∧
    (connect_to_target_with_tls "example.com" "443" []
        (fun _ => .ok 1) (.ok ()) (fun _ _ => .ok 2)
        (fun _ => .ok (some ⟨[7, 8]⟩))).2 = .ok (2, ⟨[7, 8]⟩) :=
  ⟨(claim_c8 "example.com" "443" [("example.com", "127.0.0.1")]
      (fun _ => .ok 1) (.ok ()) (fun _ _ => .ok 2) (fun _ => .ok none)).1
      "127.0.0.1" rfl,
   (claim_c8 "example.com" "443" [] (fun _ => .ok 1) (.ok ())
      (fun _ _ => .ok 2) (fun _ => .ok none)).2.1 rfl,
   ((claim_c8 "example.com" "443" [] (fun _ => .ok 1) (.ok ())
      (fun _ _ => .ok 2) (fun _ => .ok none)).2.2 1 2 rfl rfl rfl).1 rfl,
   (((claim_c8 "example.com" "443" [] (fun _ => .ok 1) (.ok ())
      (fun _ _ => .ok 2) (fun _ => .ok (some ⟨[7, 8]⟩))).2.2 1 2 rfl rfl
      rfl).2 ⟨[7, 8]⟩ rfl).1⟩

/-- C9: a body that is not valid UTF-8 is recorded with empty body text —
the HAR request gets `body_size` 0 and no `post_data`, the HAR response
gets `content.text` equal to the empty string with size 0 — while a
valid-UTF-8 body is recorded byte-for-byte: the response content text is
the body itself with its byte length as size, and a non-empty request
body yields a `post_data` whose text is the body itself. -/
theorem claim_c9 :
    ∀ (parts : RequestParts) (rparts : ResponseParts) (body : List Nat),
      (validUtf8 body = false →
        (copy_from_http_request_to_har parts body).body_size = 0 ∧
        (copy_from_http_request_to_har parts body).post_data = none ∧
        (copy_from_http_response_to_har rparts body).content.text =
          some [] ∧
        (copy_from_http_response_to_har rparts body).body_size = 0) ∧
      (validUtf8 body = true →
        (copy_from_http_response_to_har rparts body).content.text =
          some body ∧
        (copy_from_http_response_to_har rparts body).body_size =
          (body.length : Int) ∧
        (body ≠ [] → ∃ pd,
          (copy_from_http_request_to_har parts body).post_data = some pd ∧
          pd.text = some body)) := by
  intro parts rparts body
  constructor
  · intro h
    simp [copy_from_http_request_to_har, copy_from_http_response_to_har,
      body_or_empty, string_from_utf8, h]
  · intro h
    refine ⟨?_, ?_, fun hne => ?_⟩
    · simp [copy_from_http_response_to_har, body_or_empty,
        string_from_utf8, h]
    · simp [copy_from_http_response_to_har, body_or_empty,
        string_from_utf8, h]
    · have hpos : (0 : Int) < (body.length : Int) := by
        exact_mod_cast List.length_pos.mpr hne
      refine ⟨⟨(header_value parts.headers "content-type").getD "",
        some body⟩, ?_, rfl⟩
      simp [copy_from_http_request_to_har, body_or_empty,
        string_from_utf8, h, hpos]

/-- Witness for C9: the single byte 0xFF is not UTF-8 and is recorded
empty; the two-byte body "hi" is valid UTF-8 and is recorded
byte-for-byte. -/
theorem claim_c9_witness :
    (copy_from_http_request_to_har
        ⟨"POST", ⟨none, none, some "/x", none, none⟩, []⟩ [255]).body_size =
      0 ∧
    (copy_from_http_request_to_har
        ⟨"POST", ⟨none, none, some "/x", none, none⟩, []⟩ [255]).post_data =
      none ∧
    (copy_from_http_response_to_har ⟨200, []⟩ [255]).content.text =
      some [] ∧
    (copy_from_http_response_to_har ⟨200, []⟩ [104, 105]).content.text =
      some [104, 105] ∧
    (∃ pd, (copy_from_http_request_to_har
        ⟨"POST", ⟨none, none, some "/x", none, none⟩, []⟩
        [104, 105]).post_data = some pd ∧ pd.text = some [104, 105]) := by
  have hbad := (claim_c9 ⟨"POST", ⟨none, none, some "/x", none, none⟩, []⟩
    ⟨200, []⟩ [255]).1 rfl
  have hgood := (claim_c9 ⟨"POST", ⟨none, none, some "/x", none, none⟩, []⟩
    ⟨200, []⟩ [104, 105]).2 rfl
  exact ⟨hbad.1, hbad.2.1, hbad.2.2.1, hgood.1, hgood.2.2 (by decide)⟩

/-- C10: `parse_request` is not total — it returns the empty string
whenever the parsed body has no `messages` key (non-JSON bodies parse to
`Null`, which has none), returns the string form of
`messages[0].content.parts[0]` when that full path exists, and there is
an input whose JSON has a `messages` key on which it panics (modelled as
`none`) instead of returning: `messages[0]` without a `content` object. -/
theorem claim_c10 :
    (∀ parsed : Option Json,
      jsonGet (convert_body_to_json parsed) "messages" = none →
      parse_request parsed = some "") ∧
    convert_body_to_json none = Json.null ∧
    (∀ (parsed : Option Json) (msgs m0 content p0 : Json)
        (ps : List Json),
      jsonGet (convert_body_to_json parsed) "messages" = some msgs →
      jsonIndex0Mut msgs = some m0 →
      jsonGet m0 "content" = some content →
      jsonGet content "parts" = some (.arr (p0 :: ps)) →
      parse_request parsed = some (jsonToString p0)) ∧
    (∃ j : Json, (jsonGet j "messages").isSome = true ∧
      parse_request (some j) = none) := by
  refine ⟨fun parsed h => ?_, rfl, fun parsed msgs m0 content p0 ps
    h1 h2 h3 h4 => ?_, ⟨.obj [("messages", .arr [.obj []])], rfl, rfl⟩⟩
  · simp [parse_request, h]
  · simp [parse_request, h1, h2, h3, h4, jsonIndex0]

/-- Witness for C10: the repository's own test input
`{"messages":[{"content":{"parts":["Hello, world!"]}}]}` parses to the
quoted string form of the first part, exactly as the test asserts. -/
theorem claim_c10_witness :
    parse_request (some (.obj [("messages", .arr [.obj [("content",
        .obj [("parts", .arr [.str "Hello, world!"])])]])])) =
      some "\"Hello, world!\"" := by
  have h := claim_c10.2.2.1
    (some (.obj [("messages", .arr [.obj [("content",
      .obj [("parts", .arr [.str "Hello, world!"])])]])]))
    (.arr [.obj [("content", .obj [("parts",
      .arr [.str "Hello, world!"])])]])
    (.obj [("content", .obj [("parts", .arr [.str "Hello, world!"])])])
    (.obj [("parts", .arr [.str "Hello, world!"])])
    (.str "Hello, world!") [] rfl rfl rfl rfl
  exact h.trans (by rfl)

end TlsProxy
